import Mathlib

/-!
Shallow embedding of `parsec.py`, a PARSEC airfoil parameterization library.

The embedding follows the source closely:
* `Parameters.__init__` becomes `mkParams` (genome placement into the 12-slot
  vector, affine min/max scaling, sign flip on the lower-curvature slot, and
  degree-to-radian conversion of the two angle slots).
* `Coefficients._prepare_linsys_Amat`, `_calc_a_up`, `_calc_a_lo` become
  `prepare_linsys_Amat`, `calc_a_up`, `calc_a_lo`; `np.linalg.solve` is
  modelled by `linsolve A b = A⁻¹ *ᵥ b` over the reals.
* `Airfoil` becomes the state record `AirfoilState` (its `_coeff` attribute is
  only assigned inside `express`, hence an `Option`); `express` and the
  `naca0012` reference table are transcribed literally.
* Machine floats are idealized as real numbers except where a claim is about
  IEEE special values; for that, `NpVal` models numpy float64 results of the
  power and scaling operations actually used by `_prepare_linsys_Amat`.
Fallible Python code (numpy shape errors, missing attributes) is modelled
with `Except String`.
-/

noncomputable section

/-- Default 12-slot normalized parameter vector (RAE2822 values) from
`Parameters.__init__` in `parsec.py`. -/
def paramVectorDefault : Fin 12 → ℝ :=
  ![0.1155, 0.7695, 0.1391, 0.2788, 0.1244, 0.1516, 0.7519, 0.3076, 0.5116, 0, 0.2629, 0.7630]

/-- Per-slot lower bounds `r_min` from `Parameters.__init__`. -/
def r_min : Fin 12 → ℝ :=
  ![0.0037, 0.1500, 0.0440, -1.0000, 0.0037, 0.3000, -0.1200, -1.5000, -0.0100, 0.0020, -10.0000, -10.0000]

/-- Per-slot upper bounds `r_max` from `Parameters.__init__`. -/
def r_max : Fin 12 → ℝ :=
  ![0.0500, 0.5175, 0.1588, 0.3000, 0.0500, 0.6000, -0.0400, -0.3000, 0.0100, 0.0026, 10.0000, 20.0000]

/-- Result of the numpy fancy-index assignment
`param_vector[[0,1,2,3,4,5,6,7,10,11]] = genome` when `genome` has the ten
required entries: genome entry `k` goes to slot `k` for `k < 8` and to slots
10 and 11 for `k = 8, 9`; slots 8 and 9 keep their base values. -/
def genomeUpdate (base : Fin 12 → ℝ) (g : List ℝ) : Fin 12 → ℝ := fun i =>
  if i.val ≤ 7 then g.getD i.val 0
  else if i.val = 10 then g.getD 8 0
  else if i.val = 11 then g.getD 9 0
  else base i

/-- Result of the same numpy assignment when `genome` has exactly one entry:
numpy broadcasts the single value to all ten indexed slots. -/
def broadcastUpdate (base : Fin 12 → ℝ) (g : List ℝ) : Fin 12 → ℝ := fun i =>
  if i.val = 8 ∨ i.val = 9 then base i else g.getD 0 0

/-- Semantics of `param_vector[[0,1,2,3,4,5,6,7,10,11]] = genome` in
`Parameters.__init__`: numpy accepts a right-hand side of length 10
(elementwise) or of length 1 (broadcast) and raises a shape error for any
other length. -/
def applyGenome (base : Fin 12 → ℝ) (g : List ℝ) : Except String (Fin 12 → ℝ) :=
  if g.length = 10 then .ok (genomeUpdate base g)
  else if g.length = 1 then .ok (broadcastUpdate base g)
  else .error "ShapeError"

/-- Slot `i` of `p = (param_vector*spread)+r_min` in `Parameters.__init__`. -/
def scaledSlot (pv : Fin 12 → ℝ) (i : Fin 12) : ℝ :=
  pv i * (r_max i - r_min i) + r_min i

/-- Degree-to-radian conversion, `math.radians`. -/
def radians (x : ℝ) : ℝ :=
  x * Real.pi / 180

/-- The twelve physically scaled attributes set by `Parameters.__init__`. -/
structure Params where
  r_le_up : ℝ
  X_up : ℝ
  Z_up : ℝ
  Z_XX_up : ℝ
  r_le_lo : ℝ
  X_lo : ℝ
  Z_lo : ℝ
  Z_XX_lo : ℝ
  Z_te : ℝ
  dZ_te : ℝ
  alpha_te : ℝ
  beta_te : ℝ

/-- Attribute assignment block of `Parameters.__init__`: slot values after
scaling, with the lower-curvature slot negated (`self.Z_XX_lo = -p[7]`) and
the two angle slots converted from degrees to radians. -/
def scaleParams (pv : Fin 12 → ℝ) : Params where
  r_le_up := scaledSlot pv 0
  X_up := scaledSlot pv 1
  Z_up := scaledSlot pv 2
  Z_XX_up := scaledSlot pv 3
  r_le_lo := scaledSlot pv 4
  X_lo := scaledSlot pv 5
  Z_lo := scaledSlot pv 6
  Z_XX_lo := -(scaledSlot pv 7)
  Z_te := scaledSlot pv 8
  dZ_te := scaledSlot pv 9
  alpha_te := radians (scaledSlot pv 10)
  beta_te := radians (scaledSlot pv 11)

/-- The 12-slot normalized vector used by `Parameters.__init__`: the default
when no genome is given, otherwise the fancy-index assignment result. -/
def mkParamVector : Option (List ℝ) → Except String (Fin 12 → ℝ)
  | none => .ok paramVectorDefault
  | some g => applyGenome paramVectorDefault g

/-- Constructor `Parameters(genome)` as a whole. -/
def mkParams (genome : Option (List ℝ)) : Except String Params :=
  (mkParamVector genome).map scaleParams

/-- Calling `Parameters()` with no genome always succeeds with these attributes. -/
def defaultParams : Params :=
  scaleParams paramVectorDefault

/-- The 6x6 matrix built by `Coefficients._prepare_linsys_Amat`, entry for
entry (note the `13.25` coefficient in the fifth row, as in the source). -/
def prepare_linsys_Amat (X : ℝ) : Matrix (Fin 6) (Fin 6) ℝ :=
  Matrix.of
    ![![1.0, 1.0, 1.0, 1.0, 1.0, 1.0],
      ![X ^ (0.5 : ℝ), X ^ (1.5 : ℝ), X ^ (2.5 : ℝ), X ^ (3.5 : ℝ), X ^ (4.5 : ℝ), X ^ (5.5 : ℝ)],
      ![0.5, 1.5, 2.5, 3.5, 4.5, 5.5],
      ![0.5 * X ^ (-0.5 : ℝ), 1.5 * X ^ (0.5 : ℝ), 2.5 * X ^ (1.5 : ℝ),
        3.5 * X ^ (2.5 : ℝ), 4.5 * X ^ (3.5 : ℝ), 5.5 * X ^ (4.5 : ℝ)],
      ![-0.25 * X ^ (-1.5 : ℝ), 0.75 * X ^ (-0.5 : ℝ), 3.75 * X ^ (0.5 : ℝ),
        8.75 * X ^ (1.5 : ℝ), 13.25 * X ^ (2.5 : ℝ), 24.75 * X ^ (3.5 : ℝ)],
      ![1.0, 0.0, 0.0, 0.0, 0.0, 0.0]]

/-- Model of `np.linalg.solve`: the solution of `A y = b` (for an invertible
matrix, `A⁻¹ *ᵥ b` is the unique such `y`; Mathlib sets `A⁻¹ = 0` when `A`
is singular, where numpy raises instead — no claim below depends on the
singular case). -/
def linsolve (A : Matrix (Fin 6) (Fin 6) ℝ) (b : Fin 6 → ℝ) : Fin 6 → ℝ :=
  A⁻¹.mulVec b

/-- Right-hand-side vector built in `Coefficients._calc_a_up`. -/
def Bvec_up (p : Params) : Fin 6 → ℝ :=
  ![p.Z_te + p.dZ_te / 2, p.Z_up, Real.tan (p.alpha_te - p.beta_te / 2),
    0.0, p.Z_XX_up, Real.sqrt (2 * p.r_le_up)]

/-- Right-hand-side vector built in `Coefficients._calc_a_lo` (the active,
uncommented formula). -/
def Bvec_lo (p : Params) : Fin 6 → ℝ :=
  ![-p.Z_te + p.dZ_te / 2, -p.Z_lo, Real.tan (p.alpha_te + p.beta_te / 2),
    0.0, -p.Z_XX_lo, Real.sqrt (2 * p.r_le_lo)]

/-- Upper-surface target vector transcribed from the words of the claim:
`[Z_te + dZ_te/2, Z_up, tan(alpha_te - beta_te/2), 0.0, Z_XX_up,
sqrt(2*r_le_up)]`, to be compared with the source-derived `Bvec_up`. -/
def Bvec_up_spec (p : Params) : Fin 6 → ℝ :=
  ![p.Z_te + p.dZ_te / 2, p.Z_up, Real.tan (p.alpha_te - p.beta_te / 2),
    0.0, p.Z_XX_up, Real.sqrt (2 * p.r_le_up)]

/-- Lower-surface target vector transcribed from the words of the claim:
`[-Z_te + dZ_te/2, -Z_lo, tan(alpha_te + beta_te/2), 0.0, -Z_XX_lo,
sqrt(2*r_le_lo)]`, to be compared with the source-derived `Bvec_lo`. -/
def Bvec_lo_spec (p : Params) : Fin 6 → ℝ :=
  ![-p.Z_te + p.dZ_te / 2, -p.Z_lo, Real.tan (p.alpha_te + p.beta_te / 2),
    0.0, -p.Z_XX_lo, Real.sqrt (2 * p.r_le_lo)]

/-- Method `Coefficients._calc_a_up`: direct solve, no sign flip. -/
def calc_a_up (p : Params) : Fin 6 → ℝ :=
  linsolve (prepare_linsys_Amat p.X_up) (Bvec_up p)

/-- Method `Coefficients._calc_a_lo`: solve, then negate the whole vector
(`return -np.linalg.solve(Amat, Bvec)`). -/
def calc_a_lo (p : Params) : Fin 6 → ℝ :=
  -(linsolve (prepare_linsys_Amat p.X_lo) (Bvec_lo p))

/-- The two coefficient vectors held by a `Coefficients` object. -/
structure Coeffs where
  a_up : Fin 6 → ℝ
  a_lo : Fin 6 → ℝ

/-- Constructor `Coefficients.__init__`. -/
def mkCoeffs (p : Params) : Coeffs :=
  ⟨calc_a_up p, calc_a_lo p⟩

/-- Body of `Airfoil.Z_up` / `Airfoil.Z_lo`:
`a[0]*X**0.5 + a[1]*X**1.5 + a[2]*X**2.5 + a[3]*X**3.5 + a[4]*X**4.5 + a[5]*X**5.5`. -/
def Zpoly (a : Fin 6 → ℝ) (x : ℝ) : ℝ :=
  a 0 * x ^ (0.5 : ℝ) + a 1 * x ^ (1.5 : ℝ) + a 2 * x ^ (2.5 : ℝ) +
    a 3 * x ^ (3.5 : ℝ) + a 4 * x ^ (4.5 : ℝ) + a 5 * x ^ (5.5 : ℝ)

/-- IEEE-style result values of the numpy float64 operations used by
`_prepare_linsys_Amat` on a finite input: a finite real, a signed infinity,
or NaN. -/
inductive NpVal where
  | finite : ℝ → NpVal
  | inf : NpVal
  | neginf : NpVal
  | nan : NpVal

/-- numpy float64 power `b ** e` for a finite base `b`: positive bases give
the real power; `0 ** e` gives `0` for positive `e`, `1` for `e = 0` and
`+inf` (divide-by-zero, no exception) for negative `e`; a negative base
gives the real power for integer exponents and NaN (invalid, no exception)
for non-integer exponents. -/
def npPow (b e : ℝ) : NpVal := by
  classical
  exact
    if 0 < b then .finite (b ^ e)
    else if b = 0 then (if 0 < e then .finite 0 else if e = 0 then .finite 1 else .inf)
    else if ∃ n : ℤ, (n : ℝ) = e then .finite (b ^ e)
    else .nan

/-- numpy float64 multiplication of a finite literal coefficient with a
possibly non-finite power value. -/
def cmul (c : ℝ) : NpVal → NpVal
  | .finite x => .finite (c * x)
  | .inf => if 0 < c then .inf else if c < 0 then .neginf else .nan
  | .neginf => if 0 < c then .neginf else if c < 0 then .inf else .nan
  | .nan => .nan

/-- Method `Coefficients._prepare_linsys_Amat` with numpy float64 special-value
semantics for the power and scaling operations (entries that are plain
literals are finite constants). -/
def prepare_linsys_Amat_np (X : ℝ) : Fin 6 → Fin 6 → NpVal :=
  ![![.finite 1.0, .finite 1.0, .finite 1.0, .finite 1.0, .finite 1.0, .finite 1.0],
    ![npPow X 0.5, npPow X 1.5, npPow X 2.5, npPow X 3.5, npPow X 4.5, npPow X 5.5],
    ![.finite 0.5, .finite 1.5, .finite 2.5, .finite 3.5, .finite 4.5, .finite 5.5],
    ![cmul 0.5 (npPow X (-0.5)), cmul 1.5 (npPow X 0.5), cmul 2.5 (npPow X 1.5),
      cmul 3.5 (npPow X 2.5), cmul 4.5 (npPow X 3.5), cmul 5.5 (npPow X 4.5)],
    ![cmul (-0.25) (npPow X (-1.5)), cmul 0.75 (npPow X (-0.5)), cmul 3.75 (npPow X 0.5),
      cmul 8.75 (npPow X 1.5), cmul 13.25 (npPow X 2.5), cmul 24.75 (npPow X 3.5)],
    ![.finite 1.0, .finite 0.0, .finite 0.0, .finite 0.0, .finite 0.0, .finite 0.0]]

/-- A 2-row numpy coordinate matrix (X row, Z row) as held by `express`. -/
structure Foil where
  xrow : List ℝ
  zrow : List ℝ

/-- X row of the constant reference table returned by `naca0012()`. -/
def nacaXrow : List ℝ :=
  [0.99975, 0.99901, 0.99778, 0.99606, 0.99384, 0.99114, 0.98796, 0.98429, 0.98015, 0.97553,
   0.97044, 0.96489, 0.95888, 0.95241, 0.9455, 0.93815, 0.93037, 0.92216, 0.91354, 0.90451,
   0.89508, 0.88526, 0.87506, 0.86448, 0.85355, 0.84227, 0.83066, 0.81871, 0.80645, 0.79389,
   0.78104, 0.76791, 0.75452, 0.74088, 0.72699, 0.71289, 0.69857, 0.68406, 0.66937, 0.65451,
   0.6395, 0.62435, 0.60907, 0.59369, 0.57822, 0.56267, 0.54705, 0.53139, 0.5157, 0.5,
   0.48429, 0.4686, 0.45295, 0.43733, 0.42178, 0.40631, 0.39093, 0.37566, 0.3605, 0.34549,
   0.33063, 0.31594, 0.30143, 0.28711, 0.273, 0.25912, 0.24548, 0.23209, 0.21896, 0.20611,
   0.19355, 0.18129, 0.16934, 0.15773, 0.14645, 0.13552, 0.12494, 0.11474, 0.10492, 0.095492,
   0.08646, 0.077836, 0.069629, 0.061847, 0.054497, 0.047586, 0.041123, 0.035112, 0.02956, 0.024472,
   0.019853, 0.015708, 0.012042, 0.008856, 0.006156, 0.003943, 0.002219, 0.000987, 0.000247, 0,
   0.000247, 0.000987, 0.002219, 0.003943, 0.006156, 0.008856, 0.012042, 0.015708, 0.019853, 0.024472,
   0.02956, 0.035112, 0.041123, 0.047586, 0.054497, 0.061847, 0.069629, 0.077836, 0.08646, 0.095492,
   0.10492, 0.11474, 0.12494, 0.13552, 0.14645, 0.15773, 0.16934, 0.18129, 0.19355, 0.20611,
   0.21896, 0.23209, 0.24548, 0.25912, 0.273, 0.28711, 0.30143, 0.31594, 0.33063, 0.34549,
   0.3605, 0.37566, 0.39093, 0.40631, 0.42178, 0.43733, 0.45295, 0.4686, 0.48429, 0.5,
   0.5157, 0.53139, 0.54705, 0.56267, 0.57822, 0.59369, 0.60907, 0.62435, 0.6395, 0.65451,
   0.66937, 0.68406, 0.69857, 0.71289, 0.72699, 0.74088, 0.75452, 0.76791, 0.78104, 0.79389,
   0.80645, 0.81871, 0.83066, 0.84227, 0.85355, 0.86448, 0.87506, 0.88526, 0.89508, 0.90451,
   0.91354, 0.92216, 0.93037, 0.93815, 0.9455, 0.95241, 0.95888, 0.96489, 0.97044, 0.97553,
   0.98015, 0.98429, 0.98796, 0.99114, 0.99384, 0.99606, 0.99778, 0.99901, 0.99975, 1]

/-- Z row of the constant reference table returned by `naca0012()`. -/
def nacaZrow : List ℝ :=
  [0.000036, 0.000143, 0.000322, 0.000572, 0.000891, 0.00128, 0.001737, 0.00226, 0.002849, 0.003501,
   0.004216, 0.00499, 0.005822, 0.00671, 0.007651, 0.008643, 0.009684, 0.01077, 0.0119, 0.013071,
   0.01428, 0.015523, 0.0168, 0.018106, 0.019438, 0.020795, 0.022173, 0.023569, 0.024981, 0.026405,
   0.027838, 0.029279, 0.030723, 0.032168, 0.03361, 0.035048, 0.036478, 0.037896, 0.0393, 0.040686,
   0.042052, 0.043394, 0.044708, 0.045992, 0.047242, 0.048455, 0.049626, 0.050754, 0.051833, 0.052862,
   0.053835, 0.054749, 0.055602, 0.05639, 0.057108, 0.057755, 0.058326, 0.058819, 0.05923, 0.059557,
   0.059797, 0.059947, 0.060006, 0.059971, 0.059841, 0.059614, 0.059288, 0.058863, 0.058338, 0.057712,
   0.056986, 0.056159, 0.055232, 0.054206, 0.053083, 0.051862, 0.050546, 0.049138, 0.047638, 0.046049,
   0.044374, 0.042615, 0.040776, 0.038859, 0.036867, 0.034803, 0.032671, 0.030473, 0.028213, 0.025893,
   0.023517, 0.021088, 0.018607, 0.016078, 0.013503, 0.010884, 0.008223, 0.005521, 0.002779, 0,
   -0.002779, -0.005521, -0.008223, -0.010884, -0.013503, -0.016078, -0.018607, -0.021088, -0.023517, -0.025893,
   -0.028213, -0.030473, -0.032671, -0.034803, -0.036867, -0.038859, -0.040776, -0.042615, -0.044374, -0.046049,
   -0.047638, -0.049138, -0.050546, -0.051862, -0.053083, -0.054206, -0.055232, -0.056159, -0.056986, -0.057712,
   -0.058338, -0.058863, -0.059288, -0.059614, -0.059841, -0.059971, -0.060006, -0.059947, -0.059797, -0.059557,
   -0.05923, -0.058819, -0.058326, -0.057755, -0.057108, -0.05639, -0.055602, -0.054749, -0.053835, -0.052862,
   -0.051833, -0.050754, -0.049626, -0.048455, -0.047242, -0.045992, -0.044708, -0.043394, -0.042052, -0.040686,
   -0.0393, -0.037896, -0.036478, -0.035048, -0.03361, -0.032168, -0.030723, -0.029279, -0.027838, -0.026405,
   -0.024981, -0.023569, -0.022173, -0.020795, -0.019438, -0.018106, -0.0168, -0.015523, -0.01428, -0.013071,
   -0.0119, -0.01077, -0.009684, -0.008643, -0.007651, -0.00671, -0.005822, -0.00499, -0.004216, -0.003501,
   -0.002849, -0.00226, -0.001737, -0.00128, -0.000891, -0.000572, -0.000322, -0.000143, -0.000036, 0]

/-- The constant `[2 x 200]` reference table returned by `naca0012()`. -/
def naca0012 : Foil :=
  ⟨nacaXrow, nacaZrow⟩

/-- Z-row overwrite performed by `express`: `foil[1,:n_pts]` becomes the upper
polynomial evaluated on the first `n_pts` X stations and `foil[1,n_pts:]` the
lower polynomial on the remaining stations (numpy slices clamp, so together
the two assignments always cover the whole row). -/
def buildFoil (c : Coeffs) (n_pts : ℕ) : Foil :=
  ⟨naca0012.xrow,
   (naca0012.xrow.take n_pts).map (Zpoly c.a_up) ++
     (naca0012.xrow.drop n_pts).map (Zpoly c.a_lo)⟩

/-- Mutable attributes of an `Airfoil` object: `params` (a `Parameters`
object, or Python `None`) and `_coeff`, which `__init__` leaves unassigned
(the assignment is commented out in the source) — an unassigned attribute is
modelled as `none` and reading it as an `AttributeError`. -/
structure AirfoilState where
  params : Option Params
  coeff : Option Coeffs

/-- Constructor `Airfoil.__init__`: builds `Parameters` from the given genome and does
not assign `_coeff`. -/
def AirfoilState.init (genome : Option (List ℝ)) : Except String AirfoilState :=
  (mkParams genome).map fun P => ⟨some P, none⟩

/-- Method `Airfoil.Z_up`: reads `self._coeff`, an `AttributeError` when unassigned. -/
def AirfoilState.Z_up (s : AirfoilState) (x : ℝ) : Except String ℝ :=
  match s.coeff with
  | none => .error "AttributeError"
  | some c => .ok (Zpoly c.a_up x)

/-- Method `Airfoil.Z_lo`: reads `self._coeff`, an `AttributeError` when unassigned. -/
def AirfoilState.Z_lo (s : AirfoilState) (x : ℝ) : Except String ℝ :=
  match s.coeff with
  | none => .error "AttributeError"
  | some c => .ok (Zpoly c.a_lo x)

/-- Method `Airfoil.express`: when `self.params` is not `None` (always the case after
`__init__`), it is unconditionally replaced by `Parameters(params)`; then
`_coeff` is recomputed and the Z row of a fresh `naca0012()` table is
overwritten.  Returns the new object state and the returned matrix. -/
def AirfoilState.express (s : AirfoilState) (params : Option (List ℝ)) (n_pts : ℕ) :
    Except String (AirfoilState × Foil) :=
  match s.params with
  | some _ =>
      (mkParams params).bind fun P =>
        .ok (⟨some P, some (mkCoeffs P)⟩, buildFoil (mkCoeffs P) n_pts)
  | none => .error "AttributeError"

/-- Evaluation `Airfoil(g0).express(g, n_pts)` run from a fresh object, keeping only the
returned matrix. -/
def expressRun (g0 g : Option (List ℝ)) (n_pts : ℕ) : Except String Foil :=
  (AirfoilState.init g0).bind fun s => (s.express g n_pts).map Prod.snd

/-- Airfoil object state right after `Airfoil()` with no genome. -/
def airfoilDefault : AirfoilState :=
  ⟨some defaultParams, none⟩

end

/-! ## Helper lemmas -/

/-- A length-10 genome passes the numpy shape check, and the constructor
returns the scaled update of the default vector. -/
lemma mkParams_ok (g : List ℝ) (h : g.length = 10) :
    mkParams (some g) = .ok (scaleParams (genomeUpdate paramVectorDefault g)) := by
  simp only [mkParams, mkParamVector, applyGenome, h, if_pos]
  rfl

/-- An affine map with nonnegative spread keeps a value of `[0,1]` inside
the target interval. -/
lemma affine_mem (t a b : ℝ) (h0 : 0 ≤ t) (h1 : t ≤ 1) (hab : a ≤ b) :
    a ≤ t * (b - a) + a ∧ t * (b - a) + a ≤ b := by
  constructor <;> nlinarith

/-- The reference X row has exactly 200 stations. -/
lemma naca_xrow_length : naca0012.xrow.length = 200 := rfl

/-- Justification that `linsolve` models a linear solve: its result satisfies
the system whenever the matrix is invertible. -/
lemma linsolve_solves (A : Matrix (Fin 6) (Fin 6) ℝ) (b : Fin 6 → ℝ) (h : IsUnit A.det) :
    A.mulVec (linsolve A b) = b := by
  rw [linsolve, Matrix.mulVec_mulVec, Matrix.mul_nonsing_inv A h, Matrix.one_mulVec]

/-- No integer equals a real number of the form `k + 1/2`. -/
lemma no_half_int (e : ℝ) (k : ℤ) (hk : 2 * e = 2 * k + 1) : ¬ ∃ n : ℤ, (n : ℝ) = e := by
  rintro ⟨n, rfl⟩
  have h2 : (2 * n : ℤ) = 2 * k + 1 := by exact_mod_cast hk
  omega

/-- A negative base raised to a non-integer exponent is NaN in numpy. -/
lemma npPow_neg (b e : ℝ) (hb : b < 0) (he : ¬ ∃ n : ℤ, (n : ℝ) = e) :
    npPow b e = .nan := by
  rw [npPow]
  rw [if_neg (by linarith), if_neg (by linarith), if_neg he]

/-- A negative base raised to a half-odd-integer exponent is NaN in numpy. -/
lemma npPow_neg_half (b : ℝ) (hb : b < 0) (k : ℤ) (e : ℝ) (hk : 2 * e = 2 * k + 1) :
    npPow b e = .nan :=
  npPow_neg b e hb (no_half_int e k hk)

/-- Multiplying NaN by a constant stays NaN. -/
lemma cmul_nan (c : ℝ) : cmul c .nan = .nan := rfl

/-- Zero raised to a positive exponent is zero. -/
lemma npPow_zero_pos (e : ℝ) (he : 0 < e) : npPow 0 e = .finite 0 := by
  rw [npPow, if_neg (by norm_num), if_pos rfl, if_pos he]

/-- Zero raised to a negative exponent is positive infinity in numpy
(divide-by-zero warning, no exception). -/
lemma npPow_zero_neg (e : ℝ) (he : e < 0) : npPow 0 e = .inf := by
  rw [npPow, if_neg (by norm_num), if_pos rfl, if_neg (by linarith), if_neg (by linarith)]

/-- Positive constant times positive infinity. -/
lemma cmul_inf_pos (c : ℝ) (hc : 0 < c) : cmul c .inf = .inf := by
  rw [cmul, if_pos hc]

/-- Negative constant times positive infinity. -/
lemma cmul_inf_neg (c : ℝ) (hc : c < 0) : cmul c .inf = .neginf := by
  rw [cmul, if_neg (by linarith), if_pos hc]

/-- Indexing a six-entry vector literal, position 0. -/
lemma vec6_zero {α : Type} (a b c d e f : α) : (![a, b, c, d, e, f] : Fin 6 → α) 0 = a := rfl

/-- Indexing a six-entry vector literal, position 1. -/
lemma vec6_one {α : Type} (a b c d e f : α) : (![a, b, c, d, e, f] : Fin 6 → α) 1 = b := rfl

/-- Indexing a six-entry vector literal, position 2. -/
lemma vec6_two {α : Type} (a b c d e f : α) : (![a, b, c, d, e, f] : Fin 6 → α) 2 = c := rfl

/-- Indexing a six-entry vector literal, position 3. -/
lemma vec6_three {α : Type} (a b c d e f : α) : (![a, b, c, d, e, f] : Fin 6 → α) 3 = d := rfl

/-- Indexing a six-entry vector literal, position 4. -/
lemma vec6_four {α : Type} (a b c d e f : α) : (![a, b, c, d, e, f] : Fin 6 → α) 4 = e := rfl

/-- Indexing a six-entry vector literal, position 5. -/
lemma vec6_five {α : Type} (a b c d e f : α) : (![a, b, c, d, e, f] : Fin 6 → α) 5 = f := rfl

/-- A six-entry vector of non-NaN values has no NaN entry. -/
lemma vec6_ne_nan (a b c d e f : NpVal) (ha : a ≠ .nan) (hb : b ≠ .nan)
    (hc : c ≠ .nan) (hd : d ≠ .nan) (he : e ≠ .nan) (hf : f ≠ .nan) :
    ∀ j : Fin 6, (![a, b, c, d, e, f] : Fin 6 → NpVal) j ≠ .nan := by
  intro j
  fin_cases j <;> assumption

/-- Full evaluation of the numpy-semantics system matrix at `X = 0`: zero,
infinite and constant entries, no NaN anywhere and no exception. -/
lemma amat_np_zero_eval :
    prepare_linsys_Amat_np 0 =
      ![![.finite 1.0, .finite 1.0, .finite 1.0, .finite 1.0, .finite 1.0, .finite 1.0],
        ![.finite 0, .finite 0, .finite 0, .finite 0, .finite 0, .finite 0],
        ![.finite 0.5, .finite 1.5, .finite 2.5, .finite 3.5, .finite 4.5, .finite 5.5],
        ![.inf, .finite 0, .finite 0, .finite 0, .finite 0, .finite 0],
        ![.neginf, .inf, .finite 0, .finite 0, .finite 0, .finite 0],
        ![.finite 1.0, .finite 0.0, .finite 0.0, .finite 0.0, .finite 0.0, .finite 0.0]] := by
  have h0 : npPow 0 0.5 = .finite 0 := npPow_zero_pos _ (by norm_num)
  have h1 : npPow 0 1.5 = .finite 0 := npPow_zero_pos _ (by norm_num)
  have h2 : npPow 0 2.5 = .finite 0 := npPow_zero_pos _ (by norm_num)
  have h3 : npPow 0 3.5 = .finite 0 := npPow_zero_pos _ (by norm_num)
  have h4 : npPow 0 4.5 = .finite 0 := npPow_zero_pos _ (by norm_num)
  have h5 : npPow 0 5.5 = .finite 0 := npPow_zero_pos _ (by norm_num)
  have hm0 : npPow 0 (-0.5) = .inf := npPow_zero_neg _ (by norm_num)
  have hm1 : npPow 0 (-1.5) = .inf := npPow_zero_neg _ (by norm_num)
  unfold prepare_linsys_Amat_np
  rw [h0, h1, h2, h3, h4, h5, hm0, hm1]
  rw [cmul_inf_pos 0.5 (by norm_num), cmul_inf_pos 0.75 (by norm_num),
    cmul_inf_neg (-0.25) (by norm_num)]
  simp only [cmul]
  norm_num

/-- Element of the overwritten Z row in the upper-surface region: position
`j < n` comes from the mapped take-prefix. -/
lemma getD_append_map_left {α β : Type} (f g : α → β) (l : List α) (n j : ℕ) (d : β) (da : α)
    (hj : j < n) (hn : n ≤ l.length) :
    ((l.take n).map f ++ (l.drop n).map g).getD j d = f (l.getD j da) := by
  have hA : ((l.take n).map f).length = n := by
    simp [List.length_map, List.length_take]
    omega
  have hAB : ((l.take n).map f ++ (l.drop n).map g).length = l.length := by
    simp [List.length_append, List.length_map, List.length_take, List.length_drop]
    omega
  rw [List.getD_eq_getElem _ d (by omega), List.getD_eq_getElem _ da (by omega)]
  rw [List.getElem_append_left (by omega)]
  rw [List.getElem_map]
  congr 1
  rw [List.getElem_take]

/-- Element of the overwritten Z row in the lower-surface region: position
`j ≥ n` comes from the mapped drop-suffix. -/
lemma getD_append_map_right {α β : Type} (f g : α → β) (l : List α) (n j : ℕ) (d : β) (da : α)
    (hj : n ≤ j) (hj2 : j < l.length) :
    ((l.take n).map f ++ (l.drop n).map g).getD j d = g (l.getD j da) := by
  have hA : ((l.take n).map f).length = n := by
    simp [List.length_map, List.length_take]
    omega
  have hAB : ((l.take n).map f ++ (l.drop n).map g).length = l.length := by
    simp [List.length_append, List.length_map, List.length_take, List.length_drop]
    omega
  rw [List.getD_eq_getElem _ d (by omega), List.getD_eq_getElem _ da (by omega)]
  rw [List.getElem_append_right (by omega)]
  rw [List.getElem_map]
  congr 1
  rw [List.getElem_drop]
  congr 1
  omega

/-! ## Claim theorems -/

/-- Claim C1 (code bug in the source): the fifth row of the system matrix is
meant to hold the second derivatives of the basis functions, with entries
`(k+0.5)*(k-0.5)*X^(k-1.5)`.  At `k = 4` that coefficient is
`4.5 * 3.5 = 15.75`, but the source writes `13.25`: evaluated at the input
`X = 1`, the matrix entry in row 5, column 5 (1-based) is `13.25`, which
differs from the value `15.75` demanded by the claim (the five other entries
of the row do match the second-derivative formula). -/
theorem second_derivative_row_entry_mismatch :
    prepare_linsys_Amat 1 4 4 = 13.25 ∧
      ((4 : ℝ) + 0.5) * ((4 : ℝ) - 0.5) * (1 : ℝ) ^ ((4 : ℝ) - 1.5) = 15.75 ∧
      (13.25 : ℝ) ≠ 15.75 := by
  refine ⟨?_, ?_, by norm_num⟩
  · show (13.25 : ℝ) * (1 : ℝ) ^ (2.5 : ℝ) = 13.25
    rw [Real.one_rpow, mul_one]
  · rw [Real.one_rpow]
    norm_num

/-- Claim C2: the lower-surface coefficient vector is the negation of the
solution of the system `A(X_lo) y = b` with
`b = [-Z_te + dZ_te/2, -Z_lo, tan(alpha_te + beta_te/2), 0, -Z_XX_lo,
sqrt(2 r_le_lo)]`, and the upper-surface vector is the direct (unnegated)
solution for `b = [Z_te + dZ_te/2, Z_up, tan(alpha_te - beta_te/2), 0,
Z_XX_up, sqrt(2 r_le_up)]`: the source right-hand sides coincide with the
vectors transcribed from the claim, and the coefficient vectors are exactly
the (negated) `linsolve` results on them. -/
theorem coeff_vectors_follow_spec (p : Params) :
    Bvec_up p = Bvec_up_spec p ∧ Bvec_lo p = Bvec_lo_spec p ∧
      calc_a_up p = linsolve (prepare_linsys_Amat p.X_up) (Bvec_up_spec p) ∧
      calc_a_lo p = -(linsolve (prepare_linsys_Amat p.X_lo) (Bvec_lo_spec p)) :=
  ⟨rfl, rfl, rfl, rfl⟩

/-- Claim C3 (amended): for a 10-element genome with entries in `[0,1]` the
constructor succeeds, every scaled slot value (the two pre-conversion angle
slots and the two default-held slots included) lies within its declared
`[min, max]` bounds, but the `Z_XX_lo` attribute is the negation of slot 7
and therefore lies in `[-max_7, -min_7] = [0.3, 1.5]`, always strictly above
its declared upper bound. -/
theorem params_within_bounds (g : List ℝ) (hlen : g.length = 10)
    (hg : ∀ x ∈ g, 0 ≤ x ∧ x ≤ 1) :
    mkParams (some g) = .ok (scaleParams (genomeUpdate paramVectorDefault g)) ∧
      (∀ i : Fin 12, r_min i ≤ scaledSlot (genomeUpdate paramVectorDefault g) i ∧
        scaledSlot (genomeUpdate paramVectorDefault g) i ≤ r_max i) ∧
      (-(r_max 7) ≤ (scaleParams (genomeUpdate paramVectorDefault g)).Z_XX_lo ∧
        (scaleParams (genomeUpdate paramVectorDefault g)).Z_XX_lo ≤ -(r_min 7)) ∧
      ¬ (scaleParams (genomeUpdate paramVectorDefault g)).Z_XX_lo ≤ r_max 7 := by
  have hmem : ∀ k, k < 10 → 0 ≤ g.getD k 0 ∧ g.getD k 0 ≤ 1 := by
    intro k hk
    have hk2 : k < g.length := by omega
    rw [List.getD_eq_getElem g 0 hk2]
    exact hg _ (List.getElem_mem hk2)
  have hslot : ∀ i : Fin 12, r_min i ≤ scaledSlot (genomeUpdate paramVectorDefault g) i ∧
      scaledSlot (genomeUpdate paramVectorDefault g) i ≤ r_max i := by
    intro i
    fin_cases i
    · refine affine_mem _ _ _ (hmem 0 (by omega)).1 (hmem 0 (by omega)).2 ?_
      show (0.0037 : ℝ) ≤ 0.0500
      norm_num
    · refine affine_mem _ _ _ (hmem 1 (by omega)).1 (hmem 1 (by omega)).2 ?_
      show (0.1500 : ℝ) ≤ 0.5175
      norm_num
    · refine affine_mem _ _ _ (hmem 2 (by omega)).1 (hmem 2 (by omega)).2 ?_
      show (0.0440 : ℝ) ≤ 0.1588
      norm_num
    · refine affine_mem _ _ _ (hmem 3 (by omega)).1 (hmem 3 (by omega)).2 ?_
      show (-1.0000 : ℝ) ≤ 0.3000
      norm_num
    · refine affine_mem _ _ _ (hmem 4 (by omega)).1 (hmem 4 (by omega)).2 ?_
      show (0.0037 : ℝ) ≤ 0.0500
      norm_num
    · refine affine_mem _ _ _ (hmem 5 (by omega)).1 (hmem 5 (by omega)).2 ?_
      show (0.3000 : ℝ) ≤ 0.6000
      norm_num
    · refine affine_mem _ _ _ (hmem 6 (by omega)).1 (hmem 6 (by omega)).2 ?_
      show (-0.1200 : ℝ) ≤ -0.0400
      norm_num
    · refine affine_mem _ _ _ (hmem 7 (by omega)).1 (hmem 7 (by omega)).2 ?_
      show (-1.5000 : ℝ) ≤ -0.3000
      norm_num
    · refine affine_mem _ _ _ ?_ ?_ ?_
      · show (0 : ℝ) ≤ 0.5116
        norm_num
      · show (0.5116 : ℝ) ≤ 1
        norm_num
      · show (-0.0100 : ℝ) ≤ 0.0100
        norm_num
    · refine affine_mem _ _ _ ?_ ?_ ?_
      · show (0 : ℝ) ≤ 0
        norm_num
      · show (0 : ℝ) ≤ 1
        norm_num
      · show (0.0020 : ℝ) ≤ 0.0026
        norm_num
    · refine affine_mem _ _ _ (hmem 8 (by omega)).1 (hmem 8 (by omega)).2 ?_
      show (-10.0000 : ℝ) ≤ 10.0000
      norm_num
    · refine affine_mem _ _ _ (hmem 9 (by omega)).1 (hmem 9 (by omega)).2 ?_
      show (-10.0000 : ℝ) ≤ 20.0000
      norm_num
  refine ⟨mkParams_ok g hlen, hslot, ⟨?_, ?_⟩, ?_⟩
  · have := (hslot 7).2
    show -(r_max 7) ≤ -(scaledSlot (genomeUpdate paramVectorDefault g) 7)
    linarith
  · have := (hslot 7).1
    show -(scaledSlot (genomeUpdate paramVectorDefault g) 7) ≤ -(r_min 7)
    linarith
  · have := (hslot 7).2
    show ¬ -(scaledSlot (genomeUpdate paramVectorDefault g) 7) ≤ r_max 7
    have hmax : r_max 7 = (-0.3000 : ℝ) := rfl
    rw [hmax] at this ⊢
    linarith

/-- Claim C3 witness: the all-halves genome satisfies the hypotheses, and all
twelve scaled slot values land inside their declared bounds. -/
theorem params_within_bounds_witness :
    (List.replicate 10 (0.5 : ℝ)).length = 10 ∧
      (∀ x ∈ List.replicate 10 (0.5 : ℝ), 0 ≤ x ∧ x ≤ 1) ∧
      (∀ i : Fin 12,
        r_min i ≤ scaledSlot (genomeUpdate paramVectorDefault (List.replicate 10 (0.5 : ℝ))) i ∧
        scaledSlot (genomeUpdate paramVectorDefault (List.replicate 10 (0.5 : ℝ))) i ≤ r_max i) := by
  have hmem : ∀ x ∈ List.replicate 10 (0.5 : ℝ), 0 ≤ x ∧ x ≤ 1 := by
    intro x hx
    rw [List.eq_of_mem_replicate hx]
    norm_num
  exact ⟨by simp, hmem, (params_within_bounds _ (by simp) hmem).2.1⟩

/-- Claim C3 counterexample: for the all-zeros genome (entries in `[0,1]`),
the `Z_XX_lo` attribute equals `1.5`, which is not within its declared
per-slot bounds (upper bound `r_max 7 = -0.3`), so the claim as stated fails
for the `Z_XX_lo` attribute. -/
theorem lower_curvature_attr_out_of_bounds :
    Except.map Params.Z_XX_lo (mkParams (some [0, 0, 0, 0, 0, 0, 0, 0, 0, (0 : ℝ)])) =
      .ok 1.5 ∧ ¬ ((1.5 : ℝ) ≤ r_max 7) := by
  constructor
  · rw [mkParams_ok _ (by rfl)]
    show Except.ok (-(scaledSlot (genomeUpdate paramVectorDefault
      [0, 0, 0, 0, 0, 0, 0, 0, 0, 0]) 7)) = _
    have : scaledSlot (genomeUpdate paramVectorDefault [0, 0, 0, 0, 0, 0, 0, 0, 0, 0]) 7 = -1.5 := by
      show (0 : ℝ) * (-0.3000 - -1.5000) + -1.5000 = -1.5
      norm_num
    rw [this]
    norm_num
  · have hmax : r_max 7 = (-0.3000 : ℝ) := rfl
    rw [hmax]
    norm_num

/-- Claim C4 (amended): `alpha_te` and `beta_te` are the degree-to-radian
conversion of the affinely scaled slot values (`20*g[8] - 10` and
`30*g[9] - 10` degrees), i.e. the conversion happens after the min/max
scaling, not on the raw genome entries. -/
theorem angles_are_radians_of_scaled (g : List ℝ) (hlen : g.length = 10) :
    Except.map Params.alpha_te (mkParams (some g)) = .ok (radians (g.getD 8 0 * 20 - 10)) ∧
      Except.map Params.beta_te (mkParams (some g)) = .ok (radians (g.getD 9 0 * 30 - 10)) := by
  rw [mkParams_ok g hlen]
  constructor
  · show Except.ok (radians (scaledSlot (genomeUpdate paramVectorDefault g) 10)) = _
    have : scaledSlot (genomeUpdate paramVectorDefault g) 10 = g.getD 8 0 * 20 - 10 := by
      show g.getD 8 0 * (10.0000 - -10.0000) + -10.0000 = _
      ring_nf
    rw [this]
  · show Except.ok (radians (scaledSlot (genomeUpdate paramVectorDefault g) 11)) = _
    have : scaledSlot (genomeUpdate paramVectorDefault g) 11 = g.getD 9 0 * 30 - 10 := by
      show g.getD 9 0 * (20.0000 - -10.0000) + -10.0000 = _
      ring_nf
    rw [this]

/-- Claim C4 witness: for the all-ones genome the two angle attributes equal
the radian conversion of the scaled slot values. -/
theorem angles_are_radians_of_scaled_witness :
    (List.replicate 10 (1 : ℝ)).length = 10 ∧
      Except.map Params.alpha_te (mkParams (some (List.replicate 10 (1 : ℝ)))) =
        .ok (radians ((List.replicate 10 (1 : ℝ)).getD 8 0 * 20 - 10)) ∧
      Except.map Params.beta_te (mkParams (some (List.replicate 10 (1 : ℝ)))) =
        .ok (radians ((List.replicate 10 (1 : ℝ)).getD 9 0 * 30 - 10)) :=
  ⟨by simp, (angles_are_radians_of_scaled _ (by simp)).1,
    (angles_are_radians_of_scaled _ (by simp)).2⟩

/-- Claim C4 counterexample: for the all-ones genome the raw ninth supplied
entry is `1`, yet `alpha_te` equals `radians 10` (the scaled value), which
differs from `radians 1`, so the attribute is not the conversion of the
unscaled entry. -/
theorem angle_attr_not_raw_radians :
    Except.map Params.alpha_te (mkParams (some [1, 1, 1, 1, 1, 1, 1, 1, 1, (1 : ℝ)])) =
      .ok (radians 10) ∧ radians 10 ≠ radians 1 := by
  constructor
  · rw [mkParams_ok _ (by rfl)]
    show Except.ok (radians (scaledSlot (genomeUpdate paramVectorDefault
      [1, 1, 1, 1, 1, 1, 1, 1, 1, 1]) 10)) = _
    have : scaledSlot (genomeUpdate paramVectorDefault [1, 1, 1, 1, 1, 1, 1, 1, 1, 1]) 10 = 10 := by
      show (1 : ℝ) * (10.0000 - -10.0000) + -10.0000 = 10
      norm_num
    rw [this]
  · intro h
    rw [radians, radians] at h
    have hpi := Real.pi_ne_zero
    apply hpi
    field_simp at h

/-- Claim C5 (amended): `express` always returns the fixed `[2 x 200]` shape
of the reference table regardless of the requested station count `n`; the
column count equals `2*n` exactly when `n = 100`.  The first `n` columns of
the Z row carry the upper-surface polynomial at the corresponding X stations
and the remaining columns the lower-surface polynomial, so the claim as
stated holds precisely for `n = 100`. -/
theorem express_output_shape (P : Params) (n : ℕ) :
    expressRun none none n = .ok (buildFoil (mkCoeffs defaultParams) n) ∧
      (buildFoil (mkCoeffs P) n).xrow.length = 200 ∧
      (buildFoil (mkCoeffs P) n).zrow.length = 200 ∧
      ((buildFoil (mkCoeffs P) n).zrow.length = 2 * n ↔ n = 100) ∧
      (∀ j : ℕ, j < n → n ≤ 200 →
        (buildFoil (mkCoeffs P) n).zrow.getD j 0 =
          Zpoly (calc_a_up P) (naca0012.xrow.getD j 0)) ∧
      (∀ j : ℕ, n ≤ j → j < 200 →
        (buildFoil (mkCoeffs P) n).zrow.getD j 0 =
          Zpoly (calc_a_lo P) (naca0012.xrow.getD j 0)) := by
  have hx : naca0012.xrow.length = 200 := naca_xrow_length
  have hAB : ((naca0012.xrow.take n).map (Zpoly (calc_a_up P)) ++
      (naca0012.xrow.drop n).map (Zpoly (calc_a_lo P))).length = 200 := by
    simp [List.length_append, List.length_map, List.length_take, List.length_drop, hx]
    omega
  have hlen : (buildFoil (mkCoeffs P) n).zrow.length = 200 := hAB
  refine ⟨rfl, rfl, hlen, by rw [hlen]; omega, ?_, ?_⟩
  · intro j hj hn
    show ((naca0012.xrow.take n).map (Zpoly (calc_a_up P)) ++
        (naca0012.xrow.drop n).map (Zpoly (calc_a_lo P))).getD j 0 = _
    exact getD_append_map_left _ _ _ n j 0 0 hj (by rw [hx]; exact hn)
  · intro j hj hj2
    show ((naca0012.xrow.take n).map (Zpoly (calc_a_up P)) ++
        (naca0012.xrow.drop n).map (Zpoly (calc_a_lo P))).getD j 0 = _
    exact getD_append_map_right _ _ _ n j 0 0 hj (by rw [hx]; exact hj2)

/-- Claim C5 witness: at the default station count 100, column 0 of the Z row
is an upper-surface value and column 150 a lower-surface value. -/
theorem express_output_shape_witness :
    (0 : ℕ) < 100 ∧ (100 : ℕ) ≤ 200 ∧
      (buildFoil (mkCoeffs defaultParams) 100).zrow.getD 0 0 =
        Zpoly (calc_a_up defaultParams) (naca0012.xrow.getD 0 0) ∧
      (100 : ℕ) ≤ 150 ∧ (150 : ℕ) < 200 ∧
      (buildFoil (mkCoeffs defaultParams) 100).zrow.getD 150 0 =
        Zpoly (calc_a_lo defaultParams) (naca0012.xrow.getD 150 0) :=
  ⟨by norm_num, by norm_num,
    (express_output_shape defaultParams 100).2.2.2.2.1 0 (by norm_num) (by norm_num),
    by norm_num, by norm_num,
    (express_output_shape defaultParams 100).2.2.2.2.2 150 (by norm_num) (by norm_num)⟩

/-- Claim C5 counterexample: calling `express` with station count 50 returns
a `[2 x 200]` matrix, not the `[2 x 100]` one the claim demands. -/
theorem express_not_two_n_columns :
    (expressRun none none 50).map (fun f => (f.xrow.length, f.zrow.length)) =
      .ok (200, 200) ∧ (200 : ℕ) ≠ 2 * 50 := by
  constructor
  · show Except.ok ((buildFoil (mkCoeffs defaultParams) 50).xrow.length,
      (buildFoil (mkCoeffs defaultParams) 50).zrow.length) = _
    have h1 : (buildFoil (mkCoeffs defaultParams) 50).xrow.length = 200 := naca_xrow_length
    have h2 : (buildFoil (mkCoeffs defaultParams) 50).zrow.length = 200 := by
      show ((naca0012.xrow.take 50).map (Zpoly (calc_a_up defaultParams)) ++
        (naca0012.xrow.drop 50).map (Zpoly (calc_a_lo defaultParams))).length = 200
      simp [List.length_append, List.length_map, List.length_take, List.length_drop,
        naca_xrow_length]
    rw [h1, h2]
  · norm_num

/-- Claim C6 (amended): a genome whose length is neither 10 nor 1 makes the
constructor fail with the shape error; a length-10 genome is accepted
whatever its entries (numpy also accepts a length-1 genome by broadcasting,
which the counterexample below exhibits). -/
theorem genome_length_validation (g : List ℝ) :
    (g.length ≠ 10 → g.length ≠ 1 → mkParams (some g) = .error "ShapeError") ∧
      (g.length = 10 → (mkParams (some g)).toOption.isSome = true) := by
  constructor
  · intro h10 h1
    simp only [mkParams, mkParamVector, applyGenome, if_neg h10, if_neg h1]
    rfl
  · intro h10
    rw [mkParams_ok g h10]
    rfl

/-- Claim C6 witness: a length-9 genome raises the shape error, and a
length-10 genome with entries outside `[0,1]` is accepted. -/
theorem genome_length_validation_witness :
    (List.replicate 9 (0 : ℝ)).length ≠ 10 ∧ (List.replicate 9 (0 : ℝ)).length ≠ 1 ∧
      mkParams (some (List.replicate 9 (0 : ℝ))) = .error "ShapeError" ∧
      (List.replicate 10 (7 : ℝ)).length = 10 ∧
      (mkParams (some (List.replicate 10 (7 : ℝ)))).toOption.isSome = true :=
  ⟨by simp, by simp, (genome_length_validation _).1 (by simp) (by simp), by simp,
    (genome_length_validation _).2 (by simp)⟩

/-- Claim C6 counterexample: the length-1 genome `[0.5]` does not have 10
elements, yet the constructor succeeds (numpy broadcasts the single value to
all ten indexed slots), so not every genome of length other than 10 raises
the shape error. -/
theorem length_one_genome_broadcast_accepted :
    ([(0.5 : ℝ)] : List ℝ).length = 1 ∧ (1 : ℕ) ≠ 10 ∧
      (mkParams (some [(0.5 : ℝ)])).toOption.isSome = true :=
  ⟨rfl, by norm_num, rfl⟩

/-- Claim C7 (amended): building the system matrix raises no error for any
crest location.  For `X < 0` every X-dependent entry (the power row and the
two derivative rows) is NaN under numpy float64 semantics, so any solve
using the matrix propagates NaN; for `X = 0` the matrix is instead built
silently out of zeros, infinities and finite constants with no NaN at all
(see the counterexample). -/
theorem amat_negative_x_nan_entries (X : ℝ) (hX : X < 0) :
    ∀ i : Fin 6, prepare_linsys_Amat_np X 1 i = .nan ∧
      prepare_linsys_Amat_np X 3 i = .nan ∧ prepare_linsys_Amat_np X 4 i = .nan := by
  have h0 : npPow X 0.5 = .nan := npPow_neg_half X hX 0 0.5 (by norm_num)
  have h1 : npPow X 1.5 = .nan := npPow_neg_half X hX 1 1.5 (by norm_num)
  have h2 : npPow X 2.5 = .nan := npPow_neg_half X hX 2 2.5 (by norm_num)
  have h3 : npPow X 3.5 = .nan := npPow_neg_half X hX 3 3.5 (by norm_num)
  have h4 : npPow X 4.5 = .nan := npPow_neg_half X hX 4 4.5 (by norm_num)
  have h5 : npPow X 5.5 = .nan := npPow_neg_half X hX 5 5.5 (by norm_num)
  have hm0 : npPow X (-0.5) = .nan := npPow_neg_half X hX (-1) (-0.5) (by norm_num)
  have hm1 : npPow X (-1.5) = .nan := npPow_neg_half X hX (-2) (-1.5) (by norm_num)
  intro i
  fin_cases i <;>
    refine ⟨?_, ?_, ?_⟩ <;>
    simp [prepare_linsys_Amat_np, h0, h1, h2, h3, h4, h5, hm0, hm1, cmul_nan,
      vec6_zero, vec6_one, vec6_two, vec6_three, vec6_four, vec6_five]

/-- Claim C7 witness: at `X = -1` the power-row and derivative-row entries
are NaN. -/
theorem amat_negative_x_nan_entries_witness :
    ((-1 : ℝ) < 0) ∧ prepare_linsys_Amat_np (-1) 1 0 = .nan ∧
      prepare_linsys_Amat_np (-1) 3 0 = .nan ∧ prepare_linsys_Amat_np (-1) 4 0 = .nan :=
  ⟨by norm_num, (amat_negative_x_nan_entries (-1) (by norm_num) 0).1,
    (amat_negative_x_nan_entries (-1) (by norm_num) 0).2.1,
    (amat_negative_x_nan_entries (-1) (by norm_num) 0).2.2⟩

/-- Claim C7 counterexample: at the crest location `X = 0` (which is `≤ 0`)
the matrix construction neither fails nor returns NaN: no entry of the built
matrix is NaN, and the first derivative-row entry is a silently produced
positive infinity — contradicting the claim that every `X ≤ 0` either fails
with a domain error or consistently yields NaN. -/
theorem amat_zero_x_silent_no_nan :
    (∀ i j : Fin 6, prepare_linsys_Amat_np 0 i j ≠ .nan) ∧
      prepare_linsys_Amat_np 0 3 0 = .inf := by
  constructor
  · intro i j
    rw [amat_np_zero_eval]
    fin_cases i <;>
      exact vec6_ne_nan _ _ _ _ _ _ (by exact fun h => NpVal.noConfusion h)
        (by exact fun h => NpVal.noConfusion h) (by exact fun h => NpVal.noConfusion h)
        (by exact fun h => NpVal.noConfusion h) (by exact fun h => NpVal.noConfusion h)
        (by exact fun h => NpVal.noConfusion h) j
  · rw [amat_np_zero_eval]
    rfl

/-- Claim C8: every successful `express` call returns a matrix whose X row is
exactly the X row of the fixed `naca0012` reference curve — only the Z row
is freshly computed and overwritten. -/
theorem express_preserves_xrow (s : AirfoilState) (g : Option (List ℝ)) (n : ℕ)
    (s2 : AirfoilState) (f : Foil) (h : s.express g n = .ok (s2, f)) :
    f.xrow = naca0012.xrow := by
  unfold AirfoilState.express at h
  cases hp : s.params with
  | none => rw [hp] at h; exact absurd h (by simp)
  | some P =>
      rw [hp] at h
      cases hm : mkParams g with
      | error e => rw [hm] at h; exact absurd h (by simp [Except.bind])
      | ok P2 =>
          rw [hm] at h
          simp only [Except.bind, Except.ok.injEq, Prod.mk.injEq] at h
          rw [← h.2]
          rfl

/-- Claim C8 witness: the default airfoil evaluated at 100 stations keeps the
reference X row unchanged. -/
theorem express_preserves_xrow_witness :
    airfoilDefault.express none 100 =
      .ok (⟨some defaultParams, some (mkCoeffs defaultParams)⟩,
        buildFoil (mkCoeffs defaultParams) 100) ∧
      (buildFoil (mkCoeffs defaultParams) 100).xrow = naca0012.xrow :=
  ⟨rfl, express_preserves_xrow airfoilDefault none 100 _ _ rfl⟩

/-- Claim C9: constructing `Airfoil` with a genome and then calling
`express()` with no argument yields the same output as the default
construction, because `express` unconditionally rebuilds `self.params` from
its own (here absent) argument, discarding the construction genome. -/
theorem express_discards_init_genome (g : List ℝ) (n : ℕ) (h : g.length = 10) :
    expressRun (some g) none n = expressRun none none n := by
  simp only [expressRun, AirfoilState.init, mkParams, mkParamVector, applyGenome, h, if_pos]
  rfl

/-- Claim C9 witness: a concrete 10-element genome is discarded by
`express()`. -/
theorem express_discards_init_genome_witness :
    (List.replicate 10 (0 : ℝ)).length = 10 ∧
      expressRun (some (List.replicate 10 (0 : ℝ))) none 100 = expressRun none none 100 :=
  ⟨by simp, express_discards_init_genome _ 100 (by simp)⟩

/-- Claim C10: on a freshly constructed airfoil (no `express` call yet) both
surface evaluators fail with an `AttributeError`, because `__init__` leaves
the `_coeff` attribute unassigned. -/
theorem z_eval_before_express_attribute_error (g : Option (List ℝ)) (s : AirfoilState)
    (x : ℝ) (h : AirfoilState.init g = .ok s) :
    s.Z_up x = .error "AttributeError" ∧ s.Z_lo x = .error "AttributeError" := by
  unfold AirfoilState.init at h
  cases hm : mkParams g with
  | error e => rw [hm] at h; exact absurd h (by simp [Except.map])
  | ok P =>
      rw [hm] at h
      simp only [Except.map, Except.ok.injEq] at h
      rw [← h]
      exact ⟨rfl, rfl⟩

/-- Claim C10 witness: the default-constructed airfoil rejects both surface
evaluations before any `express` call. -/
theorem z_eval_before_express_attribute_error_witness :
    AirfoilState.init none = .ok airfoilDefault ∧
      airfoilDefault.Z_up 1 = .error "AttributeError" ∧
      airfoilDefault.Z_lo 1 = .error "AttributeError" :=
  ⟨rfl, z_eval_before_express_attribute_error none airfoilDefault 1 rfl⟩
